import Mathlib

/-!
Shallow embedding of the KST asymmetry scoring and ranking engine
(`scoring.ts` of the repository) together with the type definitions it
operates on (`types.ts`).  JavaScript numbers are modelled by `ℚ`
(all scoring arithmetic here is exact decimal arithmetic), optional
record fields by `Option`, and JavaScript's stable `Array.prototype.sort`
by Mathlib's stable `List.insertionSort`.
-/

namespace KST

/-- Rationale strings attached to an `AsymmetryScore` (interface `ScoreRationale`). -/
structure ScoreRationale where
  founderConviction : String
  aiDisruption : String
  whiteSpace : String
  asymmetry : String
deriving DecidableEq, Repr

/-- Composite score record (interface `AsymmetryScore`). -/
structure AsymmetryScore where
  founderConviction : ℚ
  aiDisruption : ℚ
  whiteSpace : ℚ
  asymmetry : ℚ
  total : ℚ
  rationale : Option ScoreRationale := none
deriving DecidableEq, Repr

/-- Company record (interface `Company`).  `futureCategory` is a TypeScript
string union; at run time it is a plain string, so it is modelled as `String`
(the seven legal values are listed in `validCategories`).  All optional
fields are `Option`-valued, `none` meaning `undefined`. -/
structure Company where
  ticker : String
  name : String
  cik : Option String := none
  marketCap : Option ℚ := none
  price : Option ℚ := none
  priceChange30d : Option ℚ := none
  volume : Option ℚ := none
  sector : Option String := none
  industry : Option String := none
  futureCategory : String
  revenue : Option ℚ := none
  revenueGrowth : Option ℚ := none
  grossMargin : Option ℚ := none
  cashPosition : Option ℚ := none
  debtToEquity : Option ℚ := none
  insiderOwnership : Option ℚ := none
  insiderBuying90d : Option ℚ := none
  founderShares : Option ℚ := none
  founderActive : Option Bool := none
  currentTAM : Option ℚ := none
  futureTAM : Option ℚ := none
  tamMultiple : Option ℚ := none
  tamRationale : Option String := none
  scores : Option AsymmetryScore := none
  dataQuality : Option ℚ := none
deriving DecidableEq, Repr

/-- Values of the `FutureCategory` union type in `types.ts`. -/
def validCategories : List String :=
  ["intelligence-infrastructure", "robotics-autonomous", "synthetic-biology",
   "materials-simulation", "advanced-energy", "national-security-space", "other"]

/-- Result of one factor scorer: the `\x7b score, rationale \x7d` object literal
each of the four scorers returns. -/
structure FactorResult where
  score : ℚ
  rationale : String
deriving DecidableEq, Repr

/-- Models the JavaScript expression `v || d` for an optional numeric field
`v` with default `d`: `undefined` and `0` are falsy and yield `d`. -/
def orDefault (v : Option ℚ) (d : ℚ) : ℚ :=
  match v with
  | none => d
  | some x => if x = 0 then d else x

/-- Models `Array.prototype.join('. ')` as used on the `factors` arrays. -/
def joinFactors : List String → String
  | [] => ""
  | [a] => a
  | a :: rest => a ++ ". " ++ joinFactors rest

/-- Models `factors.length > 0 ? factors.join('. ') : sentinel`. -/
def rationaleFrom (factors : List String) (sentinel : String) : String :=
  if factors = [] then sentinel else joinFactors factors

/-- Models JavaScript `Number.prototype.toFixed(1)` on the exact rational
value (round to nearest tenth, ties toward positive infinity, which is what
`toFixed` does on exactly representable values). -/
def toFixed1 (q : ℚ) : String :=
  let n : ℤ := ⌊q * 10 + 1 / 2⌋
  (if n < 0 then "-" else "") ++ toString (n.natAbs / 10) ++ "." ++ toString (n.natAbs % 10)

/-- Models JavaScript `Number.prototype.toFixed(0)` on the exact rational value. -/
def toFixed0 (q : ℚ) : String :=
  toString ⌊q + 1 / 2⌋

/-- Insider-ownership branch of `scoreFounderConviction` (0-4 points); every
branch, including the final `else`, pushes a factor string. -/
def ownershipStep (ownership : ℚ) : ℚ × List String :=
  if ownership > 30 then (4, ["High insider ownership (" ++ toFixed1 ownership ++ "%)"])
  else if ownership > 20 then (3, ["Strong insider ownership (" ++ toFixed1 ownership ++ "%)"])
  else if ownership > 10 then (2, ["Moderate insider ownership (" ++ toFixed1 ownership ++ "%)"])
  else if ownership > 5 then (1, ["Some insider ownership (" ++ toFixed1 ownership ++ "%)"])
  else (0, ["Low insider ownership (" ++ toFixed1 ownership ++ "%)"])

/-- Recent insider-buying branch of `scoreFounderConviction` (0-3 points). -/
def buyingStep (buying : ℚ) : ℚ × List String :=
  if buying > 1000000 then (3, ["Significant insider buying >$1M in 90d"])
  else if buying > 100000 then (2, ["Notable insider buying in 90d"])
  else if buying > 0 then (1, ["Some insider buying in 90d"])
  else if buying < -100000 then (0, ["Warning: Insider selling detected"])
  else (0, [])

/-- Founder-active branch of `scoreFounderConviction` (0-3 points). -/
def founderStep (active : Bool) : ℚ × List String :=
  if active then (3, ["Founder-led company"]) else (0, [])

/-- Embeds `scoreFounderConviction` from `scoring.ts`. -/
def scoreFounderConviction (company : Company) : FactorResult :=
  let ownership := orDefault company.insiderOwnership 0
  let buying := orDefault company.insiderBuying90d 0
  let s1 := ownershipStep ownership
  let s2 := buyingStep buying
  let s3 := founderStep (company.founderActive.getD false)
  { score := min (s1.1 + s2.1 + s3.1) 10
    rationale := rationaleFrom (s1.2 ++ s2.2 ++ s3.2) "Insufficient data" }

/-- Category base-score lookup table of `scoreAIDisruption` (`categoryScores`). -/
def categoryScores : List (String × ℚ) :=
  [("intelligence-infrastructure", 3), ("robotics-autonomous", 3),
   ("synthetic-biology", 2), ("materials-simulation", 3),
   ("advanced-energy", 2), ("national-security-space", 2), ("other", 0)]

/-- Models `categoryScores[company.futureCategory] || 0`: a key outside the
table yields `undefined`, which `|| 0` turns into `0`. -/
def categoryBase (cat : String) : ℚ :=
  (categoryScores.lookup cat).getD 0

/-- TAM-multiple branch of `scoreAIDisruption` (0-4 points). -/
def tamMultipleStep (tamMultiple : ℚ) : ℚ × List String :=
  if tamMultiple > 100 then (4, ["Extreme TAM expansion potential (" ++ toFixed0 tamMultiple ++ "x)"])
  else if tamMultiple > 50 then (3, ["Large TAM expansion potential (" ++ toFixed0 tamMultiple ++ "x)"])
  else if tamMultiple > 20 then (2, ["Strong TAM expansion potential (" ++ toFixed0 tamMultiple ++ "x)"])
  else if tamMultiple > 10 then (1, ["Moderate TAM expansion (" ++ toFixed0 tamMultiple ++ "x)"])
  else (0, [])

/-- Technology-enablement branch of `scoreAIDisruption` (0-3 points per the
comment, 0-2 in fact). -/
def techEnablementStep (cat : String) : ℚ × List String :=
  if cat ∈ ["intelligence-infrastructure", "robotics-autonomous", "materials-simulation"] then
    (2, ["Direct AI compute/automation beneficiary"])
  else if cat ∈ ["synthetic-biology", "advanced-energy"] then
    (1, ["AI-enabled R&D acceleration"])
  else (0, [])

/-- Embeds `scoreAIDisruption` from `scoring.ts`. -/
def scoreAIDisruption (company : Company) : FactorResult :=
  let categoryScore := categoryBase company.futureCategory
  let catFactors : List String :=
    if categoryScore > 0 then ["Core AI-adjacent sector (" ++ company.futureCategory ++ ")"] else []
  let tamMultiple := orDefault company.tamMultiple 1
  let s2 := tamMultipleStep tamMultiple
  let s3 := techEnablementStep company.futureCategory
  { score := min (categoryScore + s2.1 + s3.1) 10
    rationale := rationaleFrom (catFactors ++ s2.2 ++ s3.2) "Limited AI disruption potential" }

/-- Current-TAM tiering branch of `scoreWhiteSpace` (0-4 points; the
`currentTAM = 0` case is a distinct `else` branch worth 3). -/
def currentTAMStep (currentTAM : ℚ) : ℚ × List String :=
  if currentTAM > 0 then
    if currentTAM < 1000000000 then (4, ["Very small current TAM (<$1B)"])
    else if currentTAM < 5000000000 then (3, ["Small current TAM (<$5B)"])
    else if currentTAM < 10000000000 then (2, ["Moderate current TAM (<$10B)"])
    else (1, ["Established market"])
  else (3, ["Undefined/emerging market"])

/-- Capture-ratio branch of `scoreWhiteSpace` (0-3 points). -/
def captureStep (futureTAM marketCap : ℚ) : ℚ × List String :=
  if futureTAM > 0 ∧ marketCap > 0 then
    let captureFrac := marketCap / futureTAM
    if captureFrac < 0.001 then (3, ["Market cap is <0.1% of future TAM"])
    else if captureFrac < 0.01 then (2, ["Market cap is <1% of future TAM"])
    else if captureFrac < 0.05 then (1, ["Significant room for market capture"])
    else (0, [])
  else (0, [])

/-- Small-cap branch of `scoreWhiteSpace` (0-2 points). -/
def smallCapStep (marketCap : ℚ) : ℚ × List String :=
  if marketCap > 0 then
    if marketCap < 1000000000 then (2, ["Small cap (<$1B) - less institutional attention"])
    else if marketCap < 3000000000 then (1, ["Small-mid cap - emerging from obscurity"])
    else (0, [])
  else (0, [])

/-- Embeds `scoreWhiteSpace` from `scoring.ts`. -/
def scoreWhiteSpace (company : Company) : FactorResult :=
  let currentTAM := orDefault company.currentTAM 0
  let futureTAM := orDefault company.futureTAM 0
  let marketCap := orDefault company.marketCap 0
  let s1 := currentTAMStep currentTAM
  let s2 := captureStep futureTAM marketCap
  let s3 := smallCapStep marketCap
  { score := min (s1.1 + s2.1 + s3.1) 10
    rationale := rationaleFrom (s1.2 ++ s2.2 ++ s3.2) "Market positioning unclear" }

/-- Potential-upside branch of `scoreAsymmetry` (0-4 points), assuming 10%
market capture at maturity. -/
def upsideStep (futureTAM marketCap : ℚ) : ℚ × List String :=
  if futureTAM > 0 ∧ marketCap > 0 then
    let potentialValue := futureTAM * 0.1
    let potentialMultiple := potentialValue / marketCap
    if potentialMultiple > 100 then (4, ["100x+ potential at 10% market capture"])
    else if potentialMultiple > 50 then (3, ["50x+ potential at 10% market capture"])
    else if potentialMultiple > 20 then (2, ["20x+ potential at 10% market capture"])
    else if potentialMultiple > 10 then (1, ["10x+ potential"])
    else (0, [])
  else (0, [])

/-- Cash-position branch of `scoreAsymmetry` (0-2 points); note the second
branch does not itself require `marketCap > 0`. -/
def cashStep (marketCap cashPosition : ℚ) : ℚ × List String :=
  if marketCap > 0 ∧ cashPosition > marketCap * 0.2 then
    (2, ["Strong cash position (>20% of market cap)"])
  else if cashPosition > marketCap * 0.1 then (1, ["Adequate cash runway"])
  else (0, [])

/-- Debt branch of `scoreAsymmetry` (0-1 point, plus a warning factor). -/
def debtStep (debtToEquity : ℚ) : ℚ × List String :=
  if debtToEquity < 0.3 then (1, ["Low debt burden"])
  else if debtToEquity > 1.5 then (0, ["Warning: High debt levels"])
  else (0, [])

/-- Gross-margin quality branch of `scoreAsymmetry`: compares the raw value
against `60` while formatting it as `grossMargin * 100` percent. -/
def marginStep (grossMargin : ℚ) : ℚ × List String :=
  if grossMargin > 60 then
    (1, ["High gross margins (" ++ toFixed0 (grossMargin * 100) ++ "%)"])
  else (0, [])

/-- Revenue-growth quality branch of `scoreAsymmetry`: compares the raw value
against `30` and `15` while formatting it as `revenueGrowth * 100` percent. -/
def growthStep (revenueGrowth : ℚ) : ℚ × List String :=
  if revenueGrowth > 30 then
    (1, ["Strong revenue growth (" ++ toFixed0 (revenueGrowth * 100) ++ "%)"])
  else if revenueGrowth > 15 then (0.5, ["Solid revenue growth"])
  else (0, [])

/-- Embeds `scoreAsymmetry` from `scoring.ts`. -/
def scoreAsymmetry (company : Company) : FactorResult :=
  let futureTAM := orDefault company.futureTAM 0
  let marketCap := orDefault company.marketCap 0
  let cashPosition := orDefault company.cashPosition 0
  let debtToEquity := orDefault company.debtToEquity 0
  let grossMargin := orDefault company.grossMargin 0
  let revenueGrowth := orDefault company.revenueGrowth 0
  let s1 := upsideStep futureTAM marketCap
  let s2 := cashStep marketCap cashPosition
  let s3 := debtStep debtToEquity
  let s4 := marginStep grossMargin
  let s5 := growthStep revenueGrowth
  { score := min (s1.1 + s2.1 + s3.1 + s4.1 + s5.1) 10
    rationale := rationaleFrom (s1.2 ++ s2.2 ++ s3.2 ++ s4.2 ++ s5.2) "Risk/reward profile unclear" }

/-- Weight table `SCORE_WEIGHTS` from `constants.ts`. -/
structure ScoreWeights where
  founderConviction : ℚ
  aiDisruption : ℚ
  whiteSpace : ℚ
  asymmetry : ℚ

/-- Embeds the constant `SCORE_WEIGHTS` (all weights 1.0). -/
def SCORE_WEIGHTS : ScoreWeights :=
  { founderConviction := 1.0, aiDisruption := 1.0, whiteSpace := 1.0, asymmetry := 1.0 }

/-- Models JavaScript `Math.round` (round half toward positive infinity). -/
def jsRound (q : ℚ) : ℤ :=
  ⌊q + 1 / 2⌋

/-- Embeds `calculateAsymmetryScore` from `scoring.ts`: weighted average of
the four factor scores, with `Math.round(total * 10) / 10`. -/
def calculateAsymmetryScore (company : Company) : AsymmetryScore :=
  let founderResult := scoreFounderConviction company
  let aiResult := scoreAIDisruption company
  let whiteSpaceResult := scoreWhiteSpace company
  let asymmetryResult := scoreAsymmetry company
  let total :=
    (founderResult.score * SCORE_WEIGHTS.founderConviction +
     aiResult.score * SCORE_WEIGHTS.aiDisruption +
     whiteSpaceResult.score * SCORE_WEIGHTS.whiteSpace +
     asymmetryResult.score * SCORE_WEIGHTS.asymmetry) /
    (SCORE_WEIGHTS.founderConviction +
     SCORE_WEIGHTS.aiDisruption +
     SCORE_WEIGHTS.whiteSpace +
     SCORE_WEIGHTS.asymmetry)
  { founderConviction := founderResult.score
    aiDisruption := aiResult.score
    whiteSpace := whiteSpaceResult.score
    asymmetry := asymmetryResult.score
    total := (jsRound (total * 10) : ℚ) / 10
    rationale := some
      { founderConviction := founderResult.rationale
        aiDisruption := aiResult.rationale
        whiteSpace := whiteSpaceResult.rationale
        asymmetry := asymmetryResult.rationale } }

/-- Models `b.scores?.total || 0` in the sort comparator (a present total of
`0` and an absent score object both give `0`). -/
def scoresTotalOrZero (company : Company) : ℚ :=
  match company.scores with
  | none => 0
  | some s => if s.total = 0 then 0 else s.total

/-- Models the record update `\x7b ...company, scores: calculateAsymmetryScore(company) \x7d`. -/
def withScores (company : Company) : Company :=
  { company with scores := some (calculateAsymmetryScore company) }

/-- Ordering used by `rankCompanies`: the JavaScript comparator
`(a, b) => (b.scores?.total || 0) - (a.scores?.total || 0)` sorts a list so
that each adjacent pair satisfies this relation (total descending). -/
def rankedBefore (a b : Company) : Prop :=
  scoresTotalOrZero b ≤ scoresTotalOrZero a

instance : DecidableRel rankedBefore := fun a b =>
  inferInstanceAs (Decidable (scoresTotalOrZero b ≤ scoresTotalOrZero a))

instance : IsTotal Company rankedBefore :=
  ⟨fun a b => le_total (scoresTotalOrZero b) (scoresTotalOrZero a)⟩

instance : IsTrans Company rankedBefore :=
  ⟨fun _ _ _ hab hbc => le_trans hbc hab⟩

/-- Embeds `rankCompanies` from `scoring.ts`: attach scores to every record,
then sort by total descending.  `Array.prototype.sort` is stable, which
`List.insertionSort` with the non-strict relation `rankedBefore` models
exactly (equal totals keep input order). -/
def rankCompanies (companies : List Company) : List Company :=
  List.insertionSort rankedBefore (companies.map withScores)

/-- Generic form of the aggregator's total for arbitrary factor scores and
weights, mirroring the arithmetic of `calculateAsymmetryScore`:
`Math.round((Σ fᵢ·wᵢ / Σ wᵢ) * 10) / 10`. -/
def weightedTotal (f1 f2 f3 f4 w1 w2 w3 w4 : ℚ) : ℚ :=
  (jsRound (((f1 * w1 + f2 * w2 + f3 * w3 + f4 * w4) / (w1 + w2 + w3 + w4)) * 10) : ℚ) / 10

/-- Modelled from the spec: `round1`, rounding to one decimal place using
round-half-away-from-zero, the rounding mode the spec ascribes to the
aggregator.  Stated separately from `jsRound` (the code's `Math.round`,
half toward positive infinity) so the two can be compared. -/
def round1 (q : ℚ) : ℚ :=
  if q < 0 then -((⌊-q * 10 + 1 / 2⌋ : ℚ) / 10) else (⌊q * 10 + 1 / 2⌋ : ℚ) / 10

/-- Opening texts of the five insider-ownership factor strings pushed by the
first branch of `scoreFounderConviction`. -/
def ownershipMarkers : List String :=
  ["High insider ownership (", "Strong insider ownership (",
   "Moderate insider ownership (", "Some insider ownership (",
   "Low insider ownership ("]

/-- Company record carrying only the required fields `ticker`, `name` and
`futureCategory`; every optional field is absent. -/
def bareCompany (tk nm cat : String) : Company :=
  { ticker := tk, name := nm, futureCategory := cat }

/-- Concrete all-optional-absent record used as test input. -/
def cAllAbsent : Company :=
  { ticker := "TICK", name := "Name", futureCategory := "other" }

/-- Concrete record whose `futureCategory` lies outside the seven-value
enumeration (possible at run time, where TypeScript types are erased). -/
def cUnknownCat : Company :=
  { ticker := "TICK", name := "Name", futureCategory := "quantum-computing" }

/-- Concrete record with fraction-scale quality metrics (`grossMargin` 0.65,
`revenueGrowth` 0.35) and a neutral `debtToEquity` of 1 so that the quality
bonus is the only possible contribution to `scoreAsymmetry`. -/
def cQuality : Company :=
  { ticker := "TICK", name := "Name", futureCategory := "other",
    grossMargin := some 0.65, revenueGrowth := some 0.35, debtToEquity := some 1 }

/-- Concrete record of the white-space worked example: currentTAM $500M,
futureTAM $50B, marketCap $200M. -/
def cWhiteSpaceExample : Company :=
  { ticker := "TICK", name := "Name", futureCategory := "other",
    currentTAM := some 500000000, futureTAM := some 50000000000,
    marketCap := some 200000000 }

/-- Concrete record whose composite total evaluates to exactly 7.0
(factor scores 10, 9, 6, 3). -/
def cTieZZZ : Company :=
  { ticker := "ZZZ", name := "Z Corp", futureCategory := "intelligence-infrastructure",
    insiderOwnership := some 35, insiderBuying90d := some 2000000,
    founderActive := some true, tamMultiple := some 150,
    currentTAM := some 500000000, marketCap := some 500000000,
    cashPosition := some 200000000 }

/-- Same record as `cTieZZZ` except for the ticker, hence the same total 7.0. -/
def cTieAAA : Company :=
  { cTieZZZ with ticker := "AAA", name := "A Corp" }

/-- Every branch of the insider-ownership step awards a non-negative number
of points. -/
lemma ownershipStep_fst_nonneg (x : ℚ) : 0 ≤ (ownershipStep x).1 := by
  unfold ownershipStep; split_ifs <;> norm_num

/-- Every branch of the insider-buying step awards a non-negative number of
points. -/
lemma buyingStep_fst_nonneg (x : ℚ) : 0 ≤ (buyingStep x).1 := by
  unfold buyingStep; split_ifs <;> norm_num

/-- The founder-active step awards a non-negative number of points. -/
lemma founderStep_fst_nonneg (b : Bool) : 0 ≤ (founderStep b).1 := by
  cases b <;> simp [founderStep]

/-- A lookup with default 0 in a table of non-negative values is non-negative. -/
lemma lookup_getD_nonneg (cat : String) (l : List (String × ℚ))
    (h : ∀ p ∈ l, 0 ≤ p.2) : 0 ≤ (l.lookup cat).getD 0 := by
  induction l with
  | nil => simp [List.lookup]
  | cons p rest ih =>
    obtain ⟨k, v⟩ := p
    rcases hb : cat == k with _ | _
    · simpa [List.lookup, hb] using ih fun q hq => h q (List.mem_cons_of_mem _ hq)
    · simpa [List.lookup, hb] using h (k, v) (List.mem_cons_self _ _)

/-- The category base score is non-negative for every category string. -/
lemma categoryBase_nonneg (cat : String) : 0 ≤ categoryBase cat :=
  lookup_getD_nonneg cat categoryScores (by norm_num [categoryScores])

/-- Every branch of the TAM-multiple step awards non-negative points. -/
lemma tamMultipleStep_fst_nonneg (x : ℚ) : 0 ≤ (tamMultipleStep x).1 := by
  unfold tamMultipleStep; split_ifs <;> norm_num

/-- Every branch of the technology-enablement step awards non-negative points. -/
lemma techEnablementStep_fst_nonneg (cat : String) : 0 ≤ (techEnablementStep cat).1 := by
  unfold techEnablementStep; split_ifs <;> norm_num

/-- Every branch of the current-TAM step awards non-negative points. -/
lemma currentTAMStep_fst_nonneg (x : ℚ) : 0 ≤ (currentTAMStep x).1 := by
  unfold currentTAMStep; split_ifs <;> norm_num

/-- Every branch of the capture-ratio step awards non-negative points. -/
lemma captureStep_fst_nonneg (f m : ℚ) : 0 ≤ (captureStep f m).1 := by
  unfold captureStep; dsimp only; split_ifs <;> norm_num

/-- Every branch of the small-cap step awards non-negative points. -/
lemma smallCapStep_fst_nonneg (m : ℚ) : 0 ≤ (smallCapStep m).1 := by
  unfold smallCapStep; split_ifs <;> norm_num

/-- Every branch of the potential-upside step awards non-negative points. -/
lemma upsideStep_fst_nonneg (f m : ℚ) : 0 ≤ (upsideStep f m).1 := by
  unfold upsideStep; dsimp only; split_ifs <;> norm_num

/-- Every branch of the cash-position step awards non-negative points. -/
lemma cashStep_fst_nonneg (m c : ℚ) : 0 ≤ (cashStep m c).1 := by
  unfold cashStep; split_ifs <;> norm_num

/-- Every branch of the debt step awards non-negative points. -/
lemma debtStep_fst_nonneg (d : ℚ) : 0 ≤ (debtStep d).1 := by
  unfold debtStep; split_ifs <;> norm_num

/-- Every branch of the gross-margin step awards non-negative points. -/
lemma marginStep_fst_nonneg (g : ℚ) : 0 ≤ (marginStep g).1 := by
  unfold marginStep; split_ifs <;> norm_num

/-- Every branch of the revenue-growth step awards non-negative points. -/
lemma growthStep_fst_nonneg (g : ℚ) : 0 ≤ (growthStep g).1 := by
  unfold growthStep; split_ifs <;> norm_num

/-- The founder-conviction raw sum is non-negative before clamping. -/
lemma scoreFounderConviction_score_nonneg (c : Company) :
    0 ≤ (scoreFounderConviction c).score :=
  le_min
    (add_nonneg (add_nonneg (ownershipStep_fst_nonneg _) (buyingStep_fst_nonneg _))
      (founderStep_fst_nonneg _))
    (by norm_num)

/-- The AI-disruption score is non-negative. -/
lemma scoreAIDisruption_score_nonneg (c : Company) : 0 ≤ (scoreAIDisruption c).score :=
  le_min
    (add_nonneg (add_nonneg (categoryBase_nonneg _) (tamMultipleStep_fst_nonneg _))
      (techEnablementStep_fst_nonneg _))
    (by norm_num)

/-- The white-space score is non-negative. -/
lemma scoreWhiteSpace_score_nonneg (c : Company) : 0 ≤ (scoreWhiteSpace c).score :=
  le_min
    (add_nonneg (add_nonneg (currentTAMStep_fst_nonneg _) (captureStep_fst_nonneg _ _))
      (smallCapStep_fst_nonneg _))
    (by norm_num)

/-- The asymmetry score is non-negative. -/
lemma scoreAsymmetry_score_nonneg (c : Company) : 0 ≤ (scoreAsymmetry c).score :=
  le_min
    (add_nonneg
      (add_nonneg
        (add_nonneg (add_nonneg (upsideStep_fst_nonneg _ _) (cashStep_fst_nonneg _ _))
          (debtStep_fst_nonneg _))
        (marginStep_fst_nonneg _))
      (growthStep_fst_nonneg _))
    (by norm_num)

/-- C6: for every company record, with any combination of optional fields
present or absent, each of the four factor scorers returns a score in the
closed interval [0, 10]. -/
theorem factor_scores_in_unit_interval (c : Company) :
    (0 ≤ (scoreFounderConviction c).score ∧ (scoreFounderConviction c).score ≤ 10) ∧
    (0 ≤ (scoreAIDisruption c).score ∧ (scoreAIDisruption c).score ≤ 10) ∧
    (0 ≤ (scoreWhiteSpace c).score ∧ (scoreWhiteSpace c).score ≤ 10) ∧
    (0 ≤ (scoreAsymmetry c).score ∧ (scoreAsymmetry c).score ≤ 10) :=
  ⟨⟨scoreFounderConviction_score_nonneg c, min_le_right _ _⟩,
   ⟨scoreAIDisruption_score_nonneg c, min_le_right _ _⟩,
   ⟨scoreWhiteSpace_score_nonneg c, min_le_right _ _⟩,
   ⟨scoreAsymmetry_score_nonneg c, min_le_right _ _⟩⟩

/-- Attaching scores does not change a record's ticker. -/
lemma withScores_ticker (c : Company) : (withScores c).ticker = c.ticker := rfl

/-- C9: the ranked output of `rankCompanies` has the same length as the
input and the same multiset of tickers — no record is duplicated, dropped
or invented. -/
theorem rankCompanies_preserves_records (l : List Company) :
    (rankCompanies l).length = l.length ∧
    ((rankCompanies l).map Company.ticker).Perm (l.map Company.ticker) := by
  have hp : (rankCompanies l).Perm (l.map withScores) :=
    List.perm_insertionSort rankedBefore (l.map withScores)
  refine ⟨?_, ?_⟩
  · simpa using hp.length_eq
  · refine (hp.map Company.ticker).trans ?_
    rw [List.map_map]
    have hmap : Company.ticker ∘ withScores = Company.ticker :=
      funext fun c => withScores_ticker c
    rw [hmap]

/-- C3 (amended): for every record whose `futureCategory` falls outside the
seven-value enumeration, `scoreAIDisruption` silently treats the category
contribution as 0, returning exactly the result it would return for
category "other"; no error condition is signalled. -/
theorem scoreAIDisruption_unknown_category_defaults (c : Company)
    (h : c.futureCategory ∉ validCategories) :
    scoreAIDisruption c = scoreAIDisruption { c with futureCategory := "other" } := by
  simp only [validCategories, List.mem_cons, List.mem_singleton, not_or] at h
  obtain ⟨h1, h2, h3, h4, h5, h6, h7⟩ := h
  have e1 : (c.futureCategory == "intelligence-infrastructure") = false := by
    simp [h1]
  have e2 : (c.futureCategory == "robotics-autonomous") = false := by simp [h2]
  have e3 : (c.futureCategory == "synthetic-biology") = false := by simp [h3]
  have e4 : (c.futureCategory == "materials-simulation") = false := by simp [h4]
  have e5 : (c.futureCategory == "advanced-energy") = false := by simp [h5]
  have e6 : (c.futureCategory == "national-security-space") = false := by simp [h6]
  have e7 : (c.futureCategory == "other") = false := by simp [h7]
  simp [scoreAIDisruption, categoryBase, categoryScores, List.lookup,
    techEnablementStep, e1, e2, e3, e4, e5, e6, e7, h1, h2, h3, h4, h5, h6, h7]

/-- C3 witness: the amended statement instantiated at the concrete record
with category "quantum-computing". -/
theorem scoreAIDisruption_unknown_category_defaults_witness :
    scoreAIDisruption cUnknownCat =
      scoreAIDisruption { cUnknownCat with futureCategory := "other" } :=
  scoreAIDisruption_unknown_category_defaults cUnknownCat (by decide)

/-- C1 counterexample: on a record with every optional field absent the four
scorers do not all return score 0 with their default sentinels —
`scoreWhiteSpace` returns 3 ("Undefined/emerging market"), `scoreAsymmetry`
returns 1 ("Low debt burden"), and `scoreFounderConviction` reports
"Low insider ownership (0.0%)" instead of "Insufficient data". -/
theorem all_absent_not_all_zero_sentinel :
    ¬ (((scoreFounderConviction cAllAbsent).score = 0 ∧
        (scoreFounderConviction cAllAbsent).rationale = "Insufficient data") ∧
       ((scoreAIDisruption cAllAbsent).score = 0 ∧
        (scoreAIDisruption cAllAbsent).rationale = "Limited AI disruption potential") ∧
       ((scoreWhiteSpace cAllAbsent).score = 0 ∧
        (scoreWhiteSpace cAllAbsent).rationale = "Market positioning unclear") ∧
       ((scoreAsymmetry cAllAbsent).score = 0 ∧
        (scoreAsymmetry cAllAbsent).rationale = "Risk/reward profile unclear")) := by
  norm_num [scoreFounderConviction, scoreAIDisruption, scoreWhiteSpace, scoreAsymmetry,
    ownershipStep, buyingStep, founderStep, categoryBase, categoryScores, tamMultipleStep,
    techEnablementStep, currentTAMStep, captureStep, smallCapStep, upsideStep, cashStep,
    debtStep, marginStep, growthStep, orDefault, rationaleFrom, joinFactors, toFixed1,
    cAllAbsent, List.lookup]

/-- C1 (amended): for every record with all optional fields absent,
`scoreFounderConviction` returns 0 with rationale "Low insider ownership
(0.0%)", `scoreWhiteSpace` returns 3 with "Undefined/emerging market",
`scoreAsymmetry` returns 1 with "Low debt burden", and — when the category
is "other" — `scoreAIDisruption` returns 0 with its default sentinel. -/
theorem scorers_on_all_absent (tk nm cat : String) :
    scoreFounderConviction (bareCompany tk nm cat) =
      ⟨0, "Low insider ownership (0.0%)"⟩ ∧
    scoreWhiteSpace (bareCompany tk nm cat) = ⟨3, "Undefined/emerging market"⟩ ∧
    scoreAsymmetry (bareCompany tk nm cat) = ⟨1, "Low debt burden"⟩ ∧
    (cat = "other" →
      scoreAIDisruption (bareCompany tk nm cat) =
        ⟨0, "Limited AI disruption potential"⟩) := by
  refine ⟨?_, ?_, ?_, ?_⟩
  · norm_num [scoreFounderConviction, ownershipStep, buyingStep, founderStep, orDefault,
      rationaleFrom, joinFactors, toFixed1, bareCompany]
    all_goals decide
  · norm_num [scoreWhiteSpace, currentTAMStep, captureStep, smallCapStep, orDefault,
      rationaleFrom, joinFactors, bareCompany]
  · norm_num [scoreAsymmetry, upsideStep, cashStep, debtStep, marginStep, growthStep,
      orDefault, rationaleFrom, joinFactors, bareCompany]
  · rintro rfl
    simp [scoreAIDisruption, categoryBase, categoryScores, tamMultipleStep,
      techEnablementStep, orDefault, rationaleFrom, joinFactors, bareCompany, List.lookup,
      min_def]

/-- C1 witness: the amended statement instantiated at a concrete record. -/
theorem scorers_on_all_absent_witness :
    scoreAIDisruption (bareCompany "TICK" "Name" "other") =
      ⟨0, "Limited AI disruption potential"⟩ :=
  (scorers_on_all_absent "TICK" "Name" "other").2.2.2 rfl

/-- C3 counterexample: for a record whose `futureCategory` is outside the
seven-value enumeration, `scoreAIDisruption` signals no error at all — it
returns the very same ordinary result as a record with category "other",
silently defaulting the category contribution to 0. -/
theorem unknown_category_silently_defaults :
    cUnknownCat.futureCategory ∉ validCategories ∧
    scoreAIDisruption cUnknownCat =
      scoreAIDisruption { cUnknownCat with futureCategory := "other" } ∧
    (scoreAIDisruption cUnknownCat).score = 0 := by
  refine ⟨by decide, ?_, ?_⟩ <;>
    simp [scoreAIDisruption, categoryBase, categoryScores, tamMultipleStep,
      techEnablementStep, orDefault, rationaleFrom, joinFactors, cUnknownCat, List.lookup,
      min_def]

/-- C4: at the failing input (`grossMargin` 0.65, `revenueGrowth` 0.35 on the
fraction scale the data layer supplies), the quality-bonus branches of
`scoreAsymmetry` contribute nothing — the code compares those fractions
against the percent-scale thresholds 60, 30 and 15 even though the same
function renders them as `value * 100` percent — so the whole score is 0
instead of the specified 2; on percent-scale inputs 65 and 35 the same
branches do fire. -/
theorem quality_bonus_thresholds_percent_scale :
    (marginStep 0.65).1 = 0 ∧ (growthStep 0.35).1 = 0 ∧
    (scoreAsymmetry cQuality).score = 0 ∧
    (marginStep 65).1 = 1 ∧ (growthStep 35).1 = 1 := by
  norm_num [scoreAsymmetry, upsideStep, cashStep, debtStep, marginStep, growthStep,
    orDefault, cQuality]

/-- C7: the engine's category base-score table maps
intelligence-infrastructure, robotics-autonomous and materials-simulation
to 3, synthetic-biology, advanced-energy and national-security-space to 2,
and other to 0; in particular materials-simulation scores 3. -/
theorem categoryScores_engine_table :
    categoryBase "intelligence-infrastructure" = 3 ∧
    categoryBase "robotics-autonomous" = 3 ∧
    categoryBase "synthetic-biology" = 2 ∧
    categoryBase "materials-simulation" = 3 ∧
    categoryBase "advanced-energy" = 2 ∧
    categoryBase "national-security-space" = 2 ∧
    categoryBase "other" = 0 := by
  simp [categoryBase, categoryScores, List.lookup]

/-- C8: on the record with currentTAM $500M, futureTAM $50B and marketCap
$200M, `scoreWhiteSpace` returns 8 = 4 (TAM below $1B) + 2 (capture ratio
200M/50B = 0.004 < 0.01) + 2 (market cap below $1B). -/
theorem scoreWhiteSpace_worked_example :
    (currentTAMStep 500000000).1 = 4 ∧
    ((200000000 : ℚ) / 50000000000 = 0.004 ∧ (0.004 : ℚ) < 0.01 ∧
      (captureStep 50000000000 200000000).1 = 2) ∧
    (smallCapStep 200000000).1 = 2 ∧
    (scoreWhiteSpace cWhiteSpaceExample).score = 8 := by
  norm_num [scoreWhiteSpace, currentTAMStep, captureStep, smallCapStep, orDefault,
    cWhiteSpaceExample]

/-- C2 counterexample: two records that both total exactly 7.0, with tickers
"ZZZ" and "AAA" in that input order, come out of `rankCompanies` still in
the order ZZZ, AAA — there is no ticker tie-break placing "AAA" first. -/
theorem rankCompanies_no_ticker_tiebreak :
    (calculateAsymmetryScore cTieZZZ).total = 7 ∧
    (calculateAsymmetryScore cTieAAA).total = 7 ∧
    (rankCompanies [cTieZZZ, cTieAAA]).map Company.ticker = ["ZZZ", "AAA"] := by
  refine ⟨?_, ?_, ?_⟩ <;>
    norm_num [rankCompanies, withScores, List.insertionSort, List.orderedInsert, rankedBefore,
      scoresTotalOrZero, calculateAsymmetryScore, scoreFounderConviction, scoreAIDisruption,
      scoreWhiteSpace, scoreAsymmetry, ownershipStep, buyingStep, founderStep, categoryBase,
      categoryScores, tamMultipleStep, techEnablementStep, currentTAMStep, captureStep,
      smallCapStep, upsideStep, cashStep, debtStep, marginStep, growthStep, orDefault,
      SCORE_WEIGHTS, jsRound, cTieZZZ, cTieAAA, List.lookup]

/-- Joining a non-empty factor list yields a string beginning with the first
factor. -/
lemma joinFactors_cons (a : String) (l : List String) :
    ∃ t : String, joinFactors (a :: l) = a ++ t := by
  cases l with
  | nil => exact ⟨"", by simp [joinFactors, String.append_empty]⟩
  | cons b rest =>
    exact ⟨". " ++ joinFactors (b :: rest), by simp [joinFactors, String.append_assoc]⟩

/-- The ownership step always pushes exactly one factor string, opening with
one of the five ownership markers. -/
lemma ownershipStep_snd_marker (x : ℚ) :
    ∃ p ∈ ownershipMarkers, (ownershipStep x).2 = [p ++ (toFixed1 x ++ "%)")] := by
  unfold ownershipStep
  split_ifs
  · exact ⟨"High insider ownership (", by simp [ownershipMarkers], rfl⟩
  · exact ⟨"Strong insider ownership (", by simp [ownershipMarkers], rfl⟩
  · exact ⟨"Moderate insider ownership (", by simp [ownershipMarkers], rfl⟩
  · exact ⟨"Some insider ownership (", by simp [ownershipMarkers], rfl⟩
  · exact ⟨"Low insider ownership (", by simp [ownershipMarkers], rfl⟩

/-- C10: for every company record, the rationale of `scoreFounderConviction`
opens with one of the insider-ownership messages — the ownership branch
pushes a description even when it contributes no points — and is therefore
never the "Insufficient data" sentinel. -/
theorem founder_rationale_mentions_ownership (c : Company) :
    (∃ p ∈ ownershipMarkers, ∃ t : String,
      (scoreFounderConviction c).rationale = p ++ t) ∧
    (scoreFounderConviction c).rationale ≠ "Insufficient data" := by
  obtain ⟨p, hp, hstep⟩ := ownershipStep_snd_marker (orDefault c.insiderOwnership 0)
  have hfac : (scoreFounderConviction c).rationale =
      joinFactors ((p ++ (toFixed1 (orDefault c.insiderOwnership 0) ++ "%)")) ::
        ((buyingStep (orDefault c.insiderBuying90d 0)).2 ++
          (founderStep (c.founderActive.getD false)).2)) := by
    simp [scoreFounderConviction, rationaleFrom, hstep]
  obtain ⟨t, ht⟩ := joinFactors_cons
    (p ++ (toFixed1 (orDefault c.insiderOwnership 0) ++ "%)"))
    ((buyingStep (orDefault c.insiderBuying90d 0)).2 ++
      (founderStep (c.founderActive.getD false)).2)
  have hrat : (scoreFounderConviction c).rationale =
      (p ++ (toFixed1 (orDefault c.insiderOwnership 0) ++ "%)")) ++ t := by
    rw [hfac, ht]
  refine ⟨⟨p, hp, (toFixed1 (orDefault c.insiderOwnership 0) ++ "%)") ++ t, ?_⟩, ?_⟩
  · rw [hrat, String.append_assoc]
  · rw [hrat]
    intro h
    have hl := congrArg String.length h
    rw [String.length_append, String.length_append] at hl
    have hp17 : 17 < p.length := by
      simp only [ownershipMarkers, List.mem_cons, List.not_mem_nil, or_false] at hp
      rcases hp with rfl | rfl | rfl | rfl | rfl <;> decide
    have h17 : "Insufficient data".length = 17 := by decide
    rw [h17] at hl
    omega

/-- C2 (amended): `rankCompanies` sorts by total descending with a stable
sort and no ticker tie-break: the output is pairwise descending in total,
any input pair already in comparator order (which includes every
equal-total pair) keeps its relative order, and on the two 7.0-total
records with tickers "ZZZ" then "AAA" the input order ZZZ, AAA survives. -/
theorem rankCompanies_sorted_and_stable :
    (∀ l : List Company, (rankCompanies l).Sorted rankedBefore) ∧
    (∀ (l : List Company) (a b : Company),
      rankedBefore a b → List.Sublist [a, b] (l.map withScores) →
        List.Sublist [a, b] (rankCompanies l)) ∧
    (rankCompanies [cTieZZZ, cTieAAA]).map Company.ticker = ["ZZZ", "AAA"] := by
  refine ⟨?_, ?_, ?_⟩
  · intro l
    exact List.sorted_insertionSort rankedBefore (l.map withScores)
  · intro l a b hab h
    exact List.pair_sublist_insertionSort hab h
  · norm_num [rankCompanies, withScores, List.insertionSort, List.orderedInsert, rankedBefore,
      scoresTotalOrZero, calculateAsymmetryScore, scoreFounderConviction, scoreAIDisruption,
      scoreWhiteSpace, scoreAsymmetry, ownershipStep, buyingStep, founderStep, categoryBase,
      categoryScores, tamMultipleStep, techEnablementStep, currentTAMStep, captureStep,
      smallCapStep, upsideStep, cashStep, debtStep, marginStep, growthStep, orDefault,
      SCORE_WEIGHTS, jsRound, cTieZZZ, cTieAAA, List.lookup]

/-- C2 witness: the stability clause applied to the concrete equal-total
pair — the ZZZ record stays ahead of the AAA record. -/
theorem rankCompanies_sorted_and_stable_witness :
    List.Sublist [withScores cTieZZZ, withScores cTieAAA]
      (rankCompanies [cTieZZZ, cTieAAA]) :=
  rankCompanies_sorted_and_stable.2.1 [cTieZZZ, cTieAAA] (withScores cTieZZZ)
    (withScores cTieAAA)
    (by norm_num [rankedBefore, scoresTotalOrZero, withScores, calculateAsymmetryScore,
      scoreFounderConviction, scoreAIDisruption, scoreWhiteSpace, scoreAsymmetry,
      ownershipStep, buyingStep, founderStep, categoryBase, categoryScores, tamMultipleStep,
      techEnablementStep, currentTAMStep, captureStep, smallCapStep, upsideStep, cashStep,
      debtStep, marginStep, growthStep, orDefault, SCORE_WEIGHTS, jsRound, cTieZZZ, cTieAAA,
      List.lookup])
    (by simp only [List.map_cons, List.map_nil]; exact List.Sublist.refl _)

/-- Rounding an integer number of tenths to one decimal is the identity. -/
lemma round1_int_div (j : ℤ) : round1 ((j : ℚ) / 10) = (j : ℚ) / 10 := by
  unfold round1
  have h2 : ⌊(1 : ℚ) / 2⌋ = 0 := by norm_num
  by_cases hj : (j : ℚ) / 10 < 0
  · rw [if_pos hj]
    have h1 : -((j : ℚ) / 10) * 10 + 1 / 2 = ((-j : ℤ) : ℚ) + 1 / 2 := by
      push_cast; ring
    rw [h1, Int.floor_int_add, h2, add_zero]
    push_cast; ring
  · rw [if_neg hj]
    have h1 : (j : ℚ) / 10 * 10 + 1 / 2 = ((j : ℤ) : ℚ) + 1 / 2 := by
      ring
    rw [h1, Int.floor_int_add, h2, add_zero]

/-- Every value of `round1` is an integer number of tenths. -/
lemma round1_shape (x : ℚ) : ∃ j : ℤ, round1 x = (j : ℚ) / 10 := by
  unfold round1
  split_ifs
  · exact ⟨-⌊-x * 10 + 1 / 2⌋, by push_cast; ring⟩
  · exact ⟨⌊x * 10 + 1 / 2⌋, rfl⟩

/-- C5: the aggregator total is the weighted arithmetic mean of the four
factor scores — with the all-1.0 weight table, the plain mean — rounded to
one decimal place by round-half-away-from-zero (`round1`, which agrees with
the code's `Math.round`-based form on the non-negative totals that arise);
for factor scores in [0,10] and non-negative weights with positive sum the
total lies in [0,10]; and `round1` is idempotent. -/
theorem total_is_rounded_weighted_mean :
    SCORE_WEIGHTS = ⟨1, 1, 1, 1⟩ ∧
    (∀ c : Company,
      (calculateAsymmetryScore c).total =
        round1 (((scoreFounderConviction c).score + (scoreAIDisruption c).score +
          (scoreWhiteSpace c).score + (scoreAsymmetry c).score) / 4)) ∧
    (∀ f1 f2 f3 f4 w1 w2 w3 w4 : ℚ,
      0 ≤ f1 → f1 ≤ 10 → 0 ≤ f2 → f2 ≤ 10 → 0 ≤ f3 → f3 ≤ 10 → 0 ≤ f4 → f4 ≤ 10 →
      0 ≤ w1 → 0 ≤ w2 → 0 ≤ w3 → 0 ≤ w4 → 0 < w1 + w2 + w3 + w4 →
      0 ≤ weightedTotal f1 f2 f3 f4 w1 w2 w3 w4 ∧
        weightedTotal f1 f2 f3 f4 w1 w2 w3 w4 ≤ 10) ∧
    (∀ x : ℚ, round1 (round1 x) = round1 x) := by
  refine ⟨by norm_num [SCORE_WEIGHTS, ScoreWeights.mk.injEq], ?_, ?_, ?_⟩
  · intro c
    have hmean : (0 : ℚ) ≤
        ((scoreFounderConviction c).score + (scoreAIDisruption c).score +
          (scoreWhiteSpace c).score + (scoreAsymmetry c).score) / 4 :=
      div_nonneg
        (by
          have n1 := scoreFounderConviction_score_nonneg c
          have n2 := scoreAIDisruption_score_nonneg c
          have n3 := scoreWhiteSpace_score_nonneg c
          have n4 := scoreAsymmetry_score_nonneg c
          linarith)
        (by norm_num)
    simp only [calculateAsymmetryScore, SCORE_WEIGHTS, jsRound, round1,
      if_neg (not_lt.mpr hmean)]
    have harg :
        ((scoreFounderConviction c).score * 1.0 + (scoreAIDisruption c).score * 1.0 +
            (scoreWhiteSpace c).score * 1.0 + (scoreAsymmetry c).score * 1.0) /
            (1.0 + 1.0 + 1.0 + 1.0) * 10 + 1 / 2 =
        ((scoreFounderConviction c).score + (scoreAIDisruption c).score +
            (scoreWhiteSpace c).score + (scoreAsymmetry c).score) / 4 * 10 + 1 / 2 := by
      ring
    rw [harg]
  · intro f1 f2 f3 f4 w1 w2 w3 w4 hf1a hf1b hf2a hf2b hf3a hf3b hf4a hf4b hw1 hw2 hw3 hw4 hpos
    have hS0 : 0 ≤ f1 * w1 + f2 * w2 + f3 * w3 + f4 * w4 :=
      add_nonneg
        (add_nonneg (add_nonneg (mul_nonneg hf1a hw1) (mul_nonneg hf2a hw2))
          (mul_nonneg hf3a hw3))
        (mul_nonneg hf4a hw4)
    have hS10 : f1 * w1 + f2 * w2 + f3 * w3 + f4 * w4 ≤ 10 * (w1 + w2 + w3 + w4) := by
      have t1 := mul_le_mul_of_nonneg_right hf1b hw1
      have t2 := mul_le_mul_of_nonneg_right hf2b hw2
      have t3 := mul_le_mul_of_nonneg_right hf3b hw3
      have t4 := mul_le_mul_of_nonneg_right hf4b hw4
      linarith
    have hm0 : 0 ≤ (f1 * w1 + f2 * w2 + f3 * w3 + f4 * w4) / (w1 + w2 + w3 + w4) :=
      div_nonneg hS0 hpos.le
    have hm10 : (f1 * w1 + f2 * w2 + f3 * w3 + f4 * w4) / (w1 + w2 + w3 + w4) ≤ 10 := by
      rw [div_le_iff₀ hpos]
      linarith
    unfold weightedTotal jsRound
    constructor
    · have hfl : (0 : ℤ) ≤
          ⌊(f1 * w1 + f2 * w2 + f3 * w3 + f4 * w4) / (w1 + w2 + w3 + w4) * 10 + 1 / 2⌋ :=
        Int.floor_nonneg.mpr (by linarith)
      have hq : (0 : ℚ) ≤
          (⌊(f1 * w1 + f2 * w2 + f3 * w3 + f4 * w4) / (w1 + w2 + w3 + w4) * 10 + 1 / 2⌋ : ℚ) := by
        exact_mod_cast hfl
      exact div_nonneg hq (by norm_num)
    · have hfl :
          ⌊(f1 * w1 + f2 * w2 + f3 * w3 + f4 * w4) / (w1 + w2 + w3 + w4) * 10 + 1 / 2⌋ ≤
            (100 : ℤ) := by
        calc ⌊(f1 * w1 + f2 * w2 + f3 * w3 + f4 * w4) / (w1 + w2 + w3 + w4) * 10 + 1 / 2⌋
            ≤ ⌊(201 : ℚ) / 2⌋ := Int.floor_le_floor (by linarith)
          _ = 100 := by norm_num
      rw [div_le_iff₀ (by norm_num : (0 : ℚ) < 10)]
      have hq :
          ((⌊(f1 * w1 + f2 * w2 + f3 * w3 + f4 * w4) / (w1 + w2 + w3 + w4) * 10 + 1 / 2⌋ : ℤ) :
            ℚ) ≤ 100 := by
        exact_mod_cast hfl
      linarith
  · intro x
    obtain ⟨j, hj⟩ := round1_shape x
    rw [hj, round1_int_div]

/-- C5 witness: the range clause applied to the concrete factor vector
(10, 9, 6, 3) with the default unit weights. -/
theorem total_is_rounded_weighted_mean_witness :
    0 ≤ weightedTotal 10 9 6 3 1 1 1 1 ∧ weightedTotal 10 9 6 3 1 1 1 1 ≤ 10 :=
  total_is_rounded_weighted_mean.2.2.1 10 9 6 3 1 1 1 1 (by norm_num) (by norm_num)
    (by norm_num) (by norm_num) (by norm_num) (by norm_num) (by norm_num) (by norm_num)
    (by norm_num) (by norm_num) (by norm_num) (by norm_num) (by norm_num)

/-- C6 witness: the range statement instantiated at the all-absent record. -/
theorem factor_scores_in_unit_interval_witness :
    (0 ≤ (scoreFounderConviction cAllAbsent).score ∧
      (scoreFounderConviction cAllAbsent).score ≤ 10) ∧
    (0 ≤ (scoreAIDisruption cAllAbsent).score ∧ (scoreAIDisruption cAllAbsent).score ≤ 10) ∧
    (0 ≤ (scoreWhiteSpace cAllAbsent).score ∧ (scoreWhiteSpace cAllAbsent).score ≤ 10) ∧
    (0 ≤ (scoreAsymmetry cAllAbsent).score ∧ (scoreAsymmetry cAllAbsent).score ≤ 10) :=
  factor_scores_in_unit_interval cAllAbsent

/-- C9 witness: the permutation statement instantiated at a concrete
two-record list. -/
theorem rankCompanies_preserves_records_witness :
    (rankCompanies [cTieZZZ, cTieAAA]).length = [cTieZZZ, cTieAAA].length ∧
    ((rankCompanies [cTieZZZ, cTieAAA]).map Company.ticker).Perm
      ([cTieZZZ, cTieAAA].map Company.ticker) :=
  rankCompanies_preserves_records [cTieZZZ, cTieAAA]

/-- C10 witness: the rationale statement instantiated at the all-absent
record. -/
theorem founder_rationale_mentions_ownership_witness :
    (∃ p ∈ ownershipMarkers, ∃ t : String,
      (scoreFounderConviction cAllAbsent).rationale = p ++ t) ∧
    (scoreFounderConviction cAllAbsent).rationale ≠ "Insufficient data" :=
  founder_rationale_mentions_ownership cAllAbsent

end KST
